import Mathlib

/-!
Shallow embedding of `scripts/contextual_workspace_nav.py`: a helper that
runs a primary compositor action, observes window state before and after,
and decides whether a fallback action is needed.  Parsed JSON replies are
modelled by `JVal`, windows by association lists (Python dicts preserve
insertion order and have pairwise-distinct keys), and the three external
`niri` queries plus the action runner by an explicit `Env` record.  The
entry point `main` returns the exit code together with the ordered list of
actions that were executed.
-/

/-- Parsed JSON values as the script receives them from `json.loads`.
Numbers are modelled as integers (the script never produces or inspects
fractional values).  Python booleans are kept as a separate constructor
even though `bool` is a subclass of `int` in Python; places where the
script's `isinstance` checks accept booleans as integers account for it
explicitly. -/
inductive JVal where
  | null
  | bool (b : Bool)
  | int (n : Int)
  | str (s : String)
  | arr (elems : List JVal)
  | obj (fields : List (String × JVal))

mutual

/-- Strict structural equality of parsed JSON values, used only to state
and decide propositions about the model itself.  It is not Python's `==`
(which identifies `True` with `1` and compares dicts order-insensitively);
the script's comparisons are embedded by `JVal.pyEq` below. -/
def JVal.beq : JVal → JVal → Bool
  | .null, .null => true
  | .bool a, .bool b => a == b
  | .int a, .int b => a == b
  | .str a, .str b => a == b
  | .arr xs, .arr ys => JVal.beqList xs ys
  | .obj xs, .obj ys => JVal.beqFields xs ys
  | _, _ => false

/-- Elementwise equality of JSON arrays. -/
def JVal.beqList : List JVal → List JVal → Bool
  | [], [] => true
  | x :: xs, y :: ys => JVal.beq x y && JVal.beqList xs ys
  | _, _ => false

/-- Elementwise equality of JSON object field lists. -/
def JVal.beqFields : List (String × JVal) → List (String × JVal) → Bool
  | [], [] => true
  | (k, v) :: xs, (l, w) :: ys => k == l && JVal.beq v w && JVal.beqFields xs ys
  | _, _ => false

end

theorem JVal.beq_eq_true_iff : ∀ (a b : JVal), (JVal.beq a b = true ↔ a = b) := by
  have h := JVal.beq.mutual_induct
    (fun a b => JVal.beq a b = true ↔ a = b)
    (fun xs ys => JVal.beqFields xs ys = true ↔ xs = ys)
    (fun xs ys => JVal.beqList xs ys = true ↔ xs = ys)
  refine (h ?_ ?_ ?_ ?_ ?_ ?_ ?_ ?_ ?_ ?_ ?_ ?_ ?_).1 <;> clear h
  · simp [JVal.beq]
  · intro a b; simp [JVal.beq]
  · intro a b; simp [JVal.beq]
  · intro a b; simp [JVal.beq]
  · intro xs ys ih; simpa [JVal.beq] using ih
  · intro xs ys ih; simpa [JVal.beq] using ih
  · intro t x h1 h2 h3 h4 h5 h6
    cases t <;> cases x <;> simp [JVal.beq] <;>
      solve_by_elim
  · simp [JVal.beqList]
  · intro x xs y ys ih1 ih2
    simp only [JVal.beqList, Bool.and_eq_true]
    constructor
    · rintro ⟨hx, hrest⟩
      simp [ih1.mp hx, ih2.mp hrest]
    · rintro h
      injection h with hx hrest
      exact ⟨ih1.mpr hx, ih2.mpr hrest⟩
  · intro t x h1 h2
    cases t <;> cases x <;> simp [JVal.beqList] <;> solve_by_elim
  · simp [JVal.beqFields]
  · intro k v xs l w ys ih1 ih2
    simp only [JVal.beqFields, Bool.and_eq_true, beq_iff_eq]
    constructor
    · rintro ⟨⟨hk, hv⟩, hrest⟩
      simp [hk, ih1.mp hv, ih2.mp hrest]
    · rintro h
      injection h with h1 h2
      injection h1 with hk hv
      exact ⟨⟨hk, ih1.mpr hv⟩, ih2.mpr h2⟩
  · intro t x h1 h2
    cases t <;> cases x <;> simp [JVal.beqFields] <;> solve_by_elim

instance : BEq JVal := ⟨JVal.beq⟩

instance : LawfulBEq JVal where
  eq_of_beq h := (JVal.beq_eq_true_iff _ _).mp h
  rfl := (JVal.beq_eq_true_iff _ _).mpr rfl

instance : DecidableEq JVal := fun a b =>
  decidable_of_iff (JVal.beq a b = true) (JVal.beq_eq_true_iff a b)

mutual

/-- Python `==` on parsed JSON values, as the script's comparisons see
them: `None` and strings compare only to themselves, numeric equality
identifies `True` with `1` and `False` with `0` (`bool` is a subclass of
`int`), lists compare elementwise, and dicts compare order-insensitively
(equal size and every key present in the other dict with `==`-equal
value). -/
def JVal.pyEq : JVal → JVal → Bool
  | .null, .null => true
  | .bool a, .bool b => a == b
  | .bool a, .int n => (if a then (1 : Int) else 0) == n
  | .int n, .bool b => n == (if b then (1 : Int) else 0)
  | .int a, .int b => a == b
  | .str a, .str b => a == b
  | .arr xs, .arr ys => JVal.pyEqList xs ys
  | .obj xs, .obj ys => xs.length == ys.length && JVal.pyEqFields xs ys
  | _, _ => false

/-- Python `==` on lists: elementwise, equal lengths. -/
def JVal.pyEqList : List JVal → List JVal → Bool
  | [], [] => true
  | x :: xs, y :: ys => JVal.pyEq x y && JVal.pyEqList xs ys
  | _, _ => false

/-- The per-key half of Python dict `==`: every key of the first dict is
present in the second with a `==`-equal value.  Combined with the size
check above this is exactly `d1 == d2` for dicts, whose keys are
pairwise distinct. -/
def JVal.pyEqFields : List (String × JVal) → List (String × JVal) → Bool
  | [], _ => true
  | (k, v) :: rest, ys =>
    (match List.lookup k ys with
      | some w => JVal.pyEq v w
      | none => false) && JVal.pyEqFields rest ys

end

example : JVal.pyEq (.bool true) (.int 1) = true := by decide
example : JVal.pyEq (.int 0) (.bool false) = true := by decide
example : JVal.pyEq (.bool true) (.int 2) = false := by decide
example : JVal.pyEq (.str "1") (.int 1) = false := by decide
example : JVal.pyEq (.obj [("a", .int 1), ("b", .int 2)])
    (.obj [("b", .int 2), ("a", .int 1)]) = true := by decide
example : JVal.pyEq (.obj [("a", .int 1)]) (.obj [("a", .int 1), ("b", .int 2)]) = false := by
  decide

/-- Python truthiness of a parsed JSON value (`if value:`): `None`, `False`,
zero, the empty string, the empty list and the empty dict are falsy. -/
def truthy : JVal → Bool
  | .null => false
  | .bool b => b
  | .int n => n != 0
  | .str s => s != ""
  | .arr xs => !xs.isEmpty
  | .obj fs => !fs.isEmpty

/-- Python's substring test `needle in hay`. -/
def containsSub (hay needle : String) : Bool :=
  hay.toList.tails.any (fun t => needle.toList.isPrefixOf t)

/-- Code-point comparison of character lists: lexicographic `<=`, exactly
how Python compares the strings behind `sorted`. -/
def charsLe : List Char → List Char → Bool
  | [], _ => true
  | _ :: _, [] => false
  | c :: cs, d :: ds =>
    if c.toNat < d.toNat then true
    else if d.toNat < c.toNat then false
    else charsLe cs ds

/-- Python string comparison `a <= b`. -/
def strLe (a b : String) : Bool := charsLe a.toList b.toList

example : strLe "ab" "b" = true := by decide
example : containsSub "active_column" "column" = true := by decide
example : containsSub "workspace_id" "column" = false := by decide
example : truthy (.int 0) = false := by decide
example : (JVal.arr [.int 3] == JVal.arr [.int 3]) = true := by decide

/-- Order on rendered object entries by key, the order `sort_keys=True`
establishes before joining the entries. -/
abbrev entryLe (a b : String × String) : Prop := strLe a.1 b.1 = true

/-- Lowercase hexadecimal digit, as Python prints in \uXXXX escapes. -/
def hexDigit (n : Nat) : Char :=
  if n < 10 then Char.ofNat (48 + n) else Char.ofNat (87 + n)

/-- Four lowercase hexadecimal digits. -/
def hex4 (n : Nat) : String :=
  String.mk [hexDigit (n / 4096 % 16), hexDigit (n / 256 % 16),
    hexDigit (n / 16 % 16), hexDigit (n % 16)]

/-- Escape one character the way `json.dumps` does with its default
`ensure_ascii=True`: quote and backslash get a two-character escape, the
named control escapes are used where they exist, every other character
outside the printable ASCII range becomes \uXXXX (a surrogate pair for
code points beyond the basic multilingual plane). -/
def escChar (c : Char) : String :=
  if c = '"' then "\\\""
  else if c = '\\' then "\\\\"
  else if c = '\n' then "\\n"
  else if c = '\t' then "\\t"
  else if c = '\r' then "\\r"
  else if c.toNat = 8 then "\\b"
  else if c.toNat = 12 then "\\f"
  else if c.toNat < 32 || c.toNat > 126 then
    if c.toNat < 65536 then "\\u" ++ hex4 c.toNat
    else "\\u" ++ hex4 (55296 + (c.toNat - 65536) / 1024) ++
      "\\u" ++ hex4 (56320 + (c.toNat - 65536) % 1024)
  else String.singleton c

/-- Rendering of a string literal by `json.dumps`. -/
def serStr (s : String) : String :=
  "\"" ++ String.join (s.toList.map escChar) ++ "\""

/-- Rendering of sorted object entries: `"key": value` joined by `", "`. -/
def serEntries : List (String × String) → String
  | [] => ""
  | [e] => serStr e.1 ++ ": " ++ e.2
  | e :: f :: rest => serStr e.1 ++ ": " ++ e.2 ++ ", " ++ serEntries (f :: rest)

mutual

/-- Rendering of a JSON value by `json.dumps(..., sort_keys=True)` with the
default separators: object keys are sorted (recursively) before printing. -/
def JVal.ser : JVal → String
  | .null => "null"
  | .bool b => if b then "true" else "false"
  | .int n => toString n
  | .str s => serStr s
  | .arr xs => "[" ++ JVal.serArr xs ++ "]"
  | .obj fs => "\x7b" ++ serEntries (List.insertionSort entryLe (JVal.serFields fs)) ++ "\x7d"

/-- Rendering of array elements joined by `", "`. -/
def JVal.serArr : List JVal → String
  | [] => ""
  | [x] => JVal.ser x
  | x :: y :: rest => JVal.ser x ++ ", " ++ JVal.serArr (y :: rest)

/-- Pair each object key with the rendering of its value. -/
def JVal.serFields : List (String × JVal) → List (String × String)
  | [] => []
  | (k, v) :: rest => (k, JVal.ser v) :: JVal.serFields rest

end

/-- A window as reported by the compositor: a Python dict preserving
insertion order.  Keys of a genuine dict are pairwise distinct; statements
that need this take it as an explicit hypothesis. -/
abbrev Window := List (String × JVal)

/-- An identity: the ordered pair sequence `_window_identity` builds
(a Python tuple in the source). -/
abbrev Identity := List (String × JVal)

/-- Python `==` on two identity tuples: elementwise, the field names by
string equality and the field values by Python `==` — so an identity
recorded from a boolean id compares equal to one built from the
corresponding integer id, exactly as in the script. -/
def pyEqIdentity : Identity → Identity → Bool
  | [], [] => true
  | (k, v) :: rest, (l, w) :: rest2 =>
    k == l && JVal.pyEq v w && pyEqIdentity rest rest2
  | _, _ => false

/-- Python's `win.get(key)`: the value stored at `key`, `None` when the key
is absent.  JSON `null` and Python `None` coincide in the embedding, and
the script never distinguishes them either. -/
def pyGet (w : Window) (k : String) : JVal := (List.lookup k w).getD .null

/-- Reply of a `niri msg -j ...` query: `none` models `_run_niri_json`
returning `None` (process launch failure, non-zero exit, or JSON decode
error), `some v` a successfully parsed value `v`. -/
abbrev Reply := Option JVal

/-- `_collect_windows`: the window list from a parsed reply.  A bare list
keeps its dict elements; an object keeps the dict elements of its
`"windows"` list; every other shape (or a failed query) yields `[]`. -/
def _collect_windows (data : Reply) : List Window :=
  match data with
  | none => []
  | some (.arr ws) => ws.filterMap (fun w => match w with | .obj fs => some fs | _ => none)
  | some (.obj fields) =>
    match List.lookup "windows" fields with
    | some (.arr ws) => ws.filterMap (fun w => match w with | .obj fs => some fs | _ => none)
    | _ => []
  | some _ => []

/-- `_overview_state`: the reply when it parsed to a dict, else `None`. -/
def _overview_state (data : Reply) : Option Window :=
  match data with
  | some (.obj fields) => some fields
  | _ => none

/-- `_overview_is_open`: `some b` when the overview-state reply is a dict
whose `is_open` field is the boolean `b`, `none` otherwise. -/
def _overview_is_open (data : Reply) : Option Bool :=
  match _overview_state data with
  | none => none
  | some state =>
    match List.lookup "is_open" state with
    | some (.bool b) => some b
    | _ => none

/-- `_focused_window`: the first window whose `is_focused` field is truthy,
as `next` on the filtering generator returns it. -/
def _focused_window (windows : List Window) : Option Window :=
  windows.find? (fun w => truthy (pyGet w "is_focused"))

/-- The identifier fields `_window_identity` tries, in priority order. -/
def candidate_keys : List String :=
  ["persistent_id", "window_id", "id", "surface_id", "toplevel_id", "wayland_id"]

/-- The composite fields `_window_identity` falls back to. -/
def fallback_keys : List String := ["workspace_id", "app_id", "title", "pid"]

/-- The `isinstance(value, (str, int))` test of `_window_identity`.  In
Python `bool` is a subclass of `int`, so a boolean value passes it. -/
def isScalarValue : JVal → Bool
  | .bool _ => true
  | .int _ => true
  | .str _ => true
  | _ => false

/-- The candidate-key loop of `_window_identity`: the singleton for the
first key whose value passes the `isinstance` test (the loop breaks), `[]`
when no key does. -/
def firstScalarPart (win : Window) : List String → List (String × JVal)
  | [] => []
  | k :: ks =>
    if isScalarValue (pyGet win k) then [(k, pyGet win k)] else firstScalarPart win ks

/-- `_window_identity`: best-effort identity tuple used to match the same
window across the two queries. -/
def _window_identity (win : Window) : Identity :=
  let parts := firstScalarPart win candidate_keys
  if parts.isEmpty then fallback_keys.map (fun k => (k, pyGet win k)) else parts

/-- Python dict assignment `d[key] = value`: replace in place when the key
exists, append otherwise. -/
def dictSet : List (String × JVal) → String → JVal → List (String × JVal)
  | [], k, v => [(k, v)]
  | (k', v') :: rest, k, v =>
    if k' = k then (k, v) :: rest else (k', v') :: dictSet rest k v

/-- The snapshot dict `_window_snapshot` builds: workspace id and layout,
then every field of the window whose name contains `"column"`, assigned in
iteration order. -/
def snapshotDict (win : Window) : List (String × JVal) :=
  win.foldl
    (fun acc kv => if containsSub kv.1 "column" then dictSet acc kv.1 kv.2 else acc)
    [("workspace_id", pyGet win "workspace_id"), ("layout", pyGet win "layout")]

/-- `_window_snapshot`: the snapshot dict serialized with sorted keys. -/
def _window_snapshot (win : Window) : String := JVal.ser (.obj (snapshotDict win))

/-- `_find_window_by_identity`: linear scan for the first window whose
identity compares `==`-equal (Python equality) to the one recorded. -/
def _find_window_by_identity (windows : List Window) (identity : Identity) : Option Window :=
  windows.find? (fun win => pyEqIdentity (_window_identity win) identity)

/-- `_is_focus_action`: Python's `action.startswith("focus-")`, the
name-prefix convention that selects the comparison strategy. -/
def _is_focus_action (action : String) : Bool :=
  "focus-".toList.isPrefixOf action.toList

/-- The parsed command-line arguments the decision depends on.  `direction`
is required by the parser but only ever printed; `--overview-action` is
optional, so argparse stores `none` when the flag is absent. -/
structure Args where
  direction : String
  primaryAction : String
  fallbackAction : String
  overviewAction : Option String
deriving DecidableEq

/-- The external world of one invocation: the parsed replies the three
`niri msg -j` queries would produce, in program order, and whether
`niri msg action <name>` exits successfully for each action name. -/
structure Env where
  overviewReply : Reply
  windowsBeforeReply : Reply
  windowsAfterReply : Reply
  actionOk : String → Bool

/-- Observable outcome of a run: the process exit code and the actions
handed to `_run_action`, in execution order. -/
structure NavResult where
  exitCode : Nat
  actions : List String
deriving DecidableEq

/-- Python `a or b` on an optional string: `None` and `""` are falsy. -/
def pyOrStr (a : Option String) (b : String) : String :=
  match a with
  | none => b
  | some s => if s = "" then b else s

/-- Python truthiness of `Optional[bool]`: only `True` is truthy. -/
def pyTruthyOptBool : Option Bool → Bool
  | some b => b
  | none => false

/-- Python falsiness of `Optional[dict]`: `None` and the empty dict. -/
def pyFalsyOptWin : Option Window → Bool
  | none => true
  | some w => w.isEmpty

/-- Exit value of `return 0 if _run_action(a) else 1` together with the
trace of the actions run so far. -/
def runActionExit (env : Env) (done : List String) (a : String) : NavResult :=
  { exitCode := if env.actionOk a then 0 else 1, actions := done ++ [a] }

/-- The part of `main` that follows the overview short-circuit: query the
before set, locate the focused window, run the primary action, re-query,
and decide whether the fallback is needed. -/
def mainAfterOverview (args : Args) (env : Env) : NavResult :=
  let windows_before := _collect_windows env.windowsBeforeReply
  if windows_before.isEmpty then runActionExit env [] args.fallbackAction
  else
    let focused_before? := _focused_window windows_before
    if pyFalsyOptWin focused_before? then runActionExit env [] args.fallbackAction
    else
      match focused_before? with
      | none => runActionExit env [] args.fallbackAction
      | some focused_before =>
        if truthy (pyGet focused_before "is_floating") then
          runActionExit env [] args.fallbackAction
        else
          let focused_identity := _window_identity focused_before
          let before_snapshot := _window_snapshot focused_before
          let primary_is_focus := _is_focus_action args.primaryAction
          if !env.actionOk args.primaryAction then
            { exitCode := 1, actions := [args.primaryAction] }
          else
            let windows_after := _collect_windows env.windowsAfterReply
            if windows_after.isEmpty then
              { exitCode := 1, actions := [args.primaryAction] }
            else
              let fallback_needed : Bool :=
                if primary_is_focus then
                  match _focused_window windows_after with
                  | none => true
                  | some focused_after =>
                    focused_after.isEmpty ||
                      pyEqIdentity (_window_identity focused_after) focused_identity
                else
                  match _find_window_by_identity windows_after focused_identity with
                  | none => false
                  | some moved_window => _window_snapshot moved_window == before_snapshot
              if fallback_needed then runActionExit env [args.primaryAction] args.fallbackAction
              else { exitCode := 0, actions := [args.primaryAction] }

/-- The body of `main`: the whole decision procedure of one invocation
(named `mainNav` because Lean reserves `main` for executables). -/
def mainNav (args : Args) (env : Env) : NavResult :=
  let overview_open := _overview_is_open env.overviewReply
  if pyTruthyOptBool overview_open then
    runActionExit env [] (pyOrStr args.overviewAction args.fallbackAction)
  else mainAfterOverview args env

example : mainNav
    { direction := "up", primaryAction := "focus-window-up",
      fallbackAction := "focus-workspace-up", overviewAction := none }
    { overviewReply := some (.obj [("is_open", .bool false)])
      windowsBeforeReply := some (.arr [.obj [("id", .int 1), ("is_focused", .bool true)],
        .obj [("id", .int 2)]])
      windowsAfterReply := some (.arr [.obj [("id", .int 1)],
        .obj [("id", .int 2), ("is_focused", .bool true)]])
      actionOk := fun _ => true } =
    { exitCode := 0, actions := ["focus-window-up"] } := by decide

theorem focused_window_mem_truthy {ws : List Window} {fw : Window}
    (h : _focused_window ws = some fw) :
    fw ∈ ws ∧ truthy (pyGet fw "is_focused") = true := by
  unfold _focused_window at h
  have h2 := List.find?_some h
  exact ⟨List.mem_of_find?_eq_some h, h2⟩

theorem focused_window_ne_nil {ws : List Window} {fw : Window}
    (h : _focused_window ws = some fw) : fw.isEmpty = false := by
  cases fw with
  | nil =>
    have := (focused_window_mem_truthy h).2
    simp [pyGet, truthy] at this
  | cons a l => rfl

theorem focused_window_src_ne_nil {ws : List Window} {fw : Window}
    (h : _focused_window ws = some fw) : ws.isEmpty = false := by
  cases ws with
  | nil => simp [_focused_window] at h
  | cons a l => rfl

theorem mainNav_eq_after {args : Args} {env : Env}
    (hov : _overview_is_open env.overviewReply ≠ some true) :
    mainNav args env = mainAfterOverview args env := by
  unfold mainNav
  cases h : _overview_is_open env.overviewReply with
  | none => simp [pyTruthyOptBool]
  | some b =>
    cases b with
    | false => simp [pyTruthyOptBool]
    | true => exact absurd h hov

theorem mainAfter_reach_primary {args : Args} {env : Env} {fw : Window}
    (hfw : _focused_window (_collect_windows env.windowsBeforeReply) = some fw)
    (hfl : truthy (pyGet fw "is_floating") = false) :
    mainAfterOverview args env =
      if !env.actionOk args.primaryAction then
        { exitCode := 1, actions := [args.primaryAction] }
      else if (_collect_windows env.windowsAfterReply).isEmpty then
        { exitCode := 1, actions := [args.primaryAction] }
      else if
          (if _is_focus_action args.primaryAction then
            match _focused_window (_collect_windows env.windowsAfterReply) with
            | none => true
            | some focused_after =>
              focused_after.isEmpty ||
                pyEqIdentity (_window_identity focused_after) (_window_identity fw)
          else
            match _find_window_by_identity (_collect_windows env.windowsAfterReply)
                (_window_identity fw) with
            | none => false
            | some moved_window =>
              _window_snapshot moved_window == _window_snapshot fw) then
        runActionExit env [args.primaryAction] args.fallbackAction
      else { exitCode := 0, actions := [args.primaryAction] } := by
  have hb := focused_window_src_ne_nil hfw
  have hne := focused_window_ne_nil hfw
  unfold mainAfterOverview
  simp only [hb, hfw, pyFalsyOptWin, hne, hfl, Bool.false_eq_true, if_false]

/-- Claim C1: with the overview not open, a focused non-floating window in
a non-empty before set, a focus-type primary action that executes
successfully and a non-empty after set, the fallback action runs iff no
window of the after set is focused or the focused after-window's identity
compares Python-`==`-equal to the identity recorded for the focused
before-window; when neither holds the process exits 0 without running the
fallback. -/
theorem C1_focus_fallback_iff (args : Args) (env : Env) (fw : Window)
    (hov : _overview_is_open env.overviewReply ≠ some true)
    (_hbe : (_collect_windows env.windowsBeforeReply).isEmpty = false)
    (hfw : _focused_window (_collect_windows env.windowsBeforeReply) = some fw)
    (hfl : truthy (pyGet fw "is_floating") = false)
    (hfoc : _is_focus_action args.primaryAction = true)
    (hok : env.actionOk args.primaryAction = true)
    (haft : (_collect_windows env.windowsAfterReply).isEmpty = false) :
    ((mainNav args env).actions = [args.primaryAction, args.fallbackAction] ↔
      (_focused_window (_collect_windows env.windowsAfterReply) = none ∨
        ∃ fa, _focused_window (_collect_windows env.windowsAfterReply) = some fa ∧
          pyEqIdentity (_window_identity fa) (_window_identity fw) = true)) ∧
    (¬ (_focused_window (_collect_windows env.windowsAfterReply) = none ∨
        ∃ fa, _focused_window (_collect_windows env.windowsAfterReply) = some fa ∧
          pyEqIdentity (_window_identity fa) (_window_identity fw) = true) →
      (mainNav args env).exitCode = 0 ∧
        (mainNav args env).actions = [args.primaryAction]) := by
  rw [mainNav_eq_after hov, mainAfter_reach_primary hfw hfl]
  simp only [hok, haft, hfoc, Bool.not_true, Bool.false_eq_true, if_false, if_true]
  cases hfa : _focused_window (_collect_windows env.windowsAfterReply) with
  | none =>
    simp [runActionExit]
  | some fa =>
    have hfane := focused_window_ne_nil hfa
    simp only [hfane, Bool.false_or]
    cases hid : pyEqIdentity (_window_identity fa) (_window_identity fw) with
    | true => simp [hid, runActionExit]
    | false => simp [hid]

/-- Witness for C1 at a concrete run exercising Python's cross-type
equality: the id recorded before the action is the boolean `true`, the id
reported afterwards the integer `1`; the script treats them as the same
identity (`True == 1`), so focus did not move and the fallback runs. -/
theorem C1_focus_fallback_iff_witness :
    (mainNav
      { direction := "up", primaryAction := "focus-window-up",
        fallbackAction := "switch-up", overviewAction := none }
      { overviewReply := some (.obj [("is_open", .bool false)]),
        windowsBeforeReply := some (.arr [.obj [("id", .bool true), ("is_focused", .bool true)]]),
        windowsAfterReply := some (.arr [.obj [("id", .int 1), ("is_focused", .bool true)]]),
        actionOk := fun _ => true }).actions = ["focus-window-up", "switch-up"] :=
  (C1_focus_fallback_iff _ _ [("id", .bool true), ("is_focused", .bool true)]
      (by decide) (by decide) (by decide) (by decide) (by decide) (by decide)
      (by decide)).1.mpr
    (Or.inr ⟨[("id", .int 1), ("is_focused", .bool true)], by decide, by decide⟩)

/-- Claim C2: with the overview not open, a focused non-floating window in
a non-empty before set, a move-type primary action that executes
successfully and a non-empty after set: when no after-window's identity
compares Python-`==`-equal to the recorded identity the run is treated as
success without the fallback, and when the scan finds such a window the
fallback runs iff that window's layout snapshot equals the snapshot taken
before the action. -/
theorem C2_move_fallback_iff (args : Args) (env : Env) (fw : Window)
    (hov : _overview_is_open env.overviewReply ≠ some true)
    (_hbe : (_collect_windows env.windowsBeforeReply).isEmpty = false)
    (hfw : _focused_window (_collect_windows env.windowsBeforeReply) = some fw)
    (hfl : truthy (pyGet fw "is_floating") = false)
    (hmv : _is_focus_action args.primaryAction = false)
    (hok : env.actionOk args.primaryAction = true)
    (haft : (_collect_windows env.windowsAfterReply).isEmpty = false) :
    (_find_window_by_identity (_collect_windows env.windowsAfterReply)
        (_window_identity fw) = none →
      (mainNav args env).actions = [args.primaryAction] ∧
        (mainNav args env).exitCode = 0) ∧
    (∀ mw, _find_window_by_identity (_collect_windows env.windowsAfterReply)
        (_window_identity fw) = some mw →
      ((mainNav args env).actions = [args.primaryAction, args.fallbackAction] ↔
        _window_snapshot mw = _window_snapshot fw)) := by
  rw [mainNav_eq_after hov, mainAfter_reach_primary hfw hfl]
  simp only [hok, haft, hmv, Bool.not_true, Bool.false_eq_true, if_false]
  constructor
  · intro hnone
    simp [hnone]
  · intro mw hmw
    simp only [hmw]
    by_cases hsn : _window_snapshot mw = _window_snapshot fw
    · simp [hsn, runActionExit]
    · have hb : (_window_snapshot mw == _window_snapshot fw) = false := by
        simpa using hsn
      simp [hb, hsn]

/-- Witness for C2 at a concrete run exercising Python's cross-type
equality: the before id is the boolean `true`, the after id the integer
`1`; the linear scan still finds the window (`True == 1`) and, its
snapshot being unchanged, the fallback runs. -/
theorem C2_move_fallback_iff_witness :
    (mainNav
      { direction := "down", primaryAction := "move-window-down",
        fallbackAction := "move-to-workspace-down", overviewAction := none }
      { overviewReply := some (.obj [("is_open", .bool false)]),
        windowsBeforeReply := some (.arr [.obj
          [("id", .bool true), ("is_focused", .bool true), ("workspace_id", .int 2)]]),
        windowsAfterReply := some (.arr [.obj
          [("id", .int 1), ("workspace_id", .int 2)]]),
        actionOk := fun _ => true }).actions =
      ["move-window-down", "move-to-workspace-down"] :=
  ((C2_move_fallback_iff _ _
      [("id", .bool true), ("is_focused", .bool true), ("workspace_id", .int 2)]
      (by decide) (by decide) (by decide) (by decide) (by decide) (by decide)
      (by decide)).2
    [("id", .int 1), ("workspace_id", .int 2)]
    (by decide)).mpr (by decide)

/-- Claim C3: when the overview-state reply is a dict whose `is_open` is
the boolean `true`, the overview action (or the fallback when none was
supplied) runs and the outcome never depends on either window query; when
`is_open` is not the boolean `true` (false, unavailable, or an unexpected
shape) the short-circuit is not taken and the run continues with the
window-querying part of the algorithm. -/
theorem C3_overview_gate (args : Args) (env : Env) :
    (∀ fs, env.overviewReply = some (.obj fs) →
      List.lookup "is_open" fs = some (.bool true) →
      (mainNav args env).actions = [pyOrStr args.overviewAction args.fallbackAction] ∧
      ∀ wb wa, mainNav args
          { env with windowsBeforeReply := wb, windowsAfterReply := wa } =
        mainNav args env) ∧
    (_overview_is_open env.overviewReply ≠ some true →
      mainNav args env = mainAfterOverview args env) := by
  constructor
  · intro fs hrep hlook
    have hopen : _overview_is_open env.overviewReply = some true := by
      simp [_overview_is_open, _overview_state, hrep, hlook]
    constructor
    · simp [mainNav, hopen, pyTruthyOptBool, runActionExit]
    · intro wb wa
      have hopen' : _overview_is_open
          ({ env with windowsBeforeReply := wb, windowsAfterReply := wa } : Env).overviewReply =
          some true := hopen
      simp [mainNav, hopen, hopen', pyTruthyOptBool, runActionExit]
  · exact mainNav_eq_after

/-- Witness for C3: overview open, no overview action supplied, so the
fallback runs; and a closed-overview environment follows the window path. -/
theorem C3_overview_gate_witness :
    (mainNav
      { direction := "up", primaryAction := "focus-column-up",
        fallbackAction := "switch-up", overviewAction := none }
      { overviewReply := some (.obj [("is_open", .bool true)]),
        windowsBeforeReply := none, windowsAfterReply := none,
        actionOk := fun _ => true }).actions = ["switch-up"] ∧
    mainNav
      { direction := "up", primaryAction := "focus-column-up",
        fallbackAction := "switch-up", overviewAction := none }
      { overviewReply := none, windowsBeforeReply := none, windowsAfterReply := none,
        actionOk := fun _ => true } =
    mainAfterOverview
      { direction := "up", primaryAction := "focus-column-up",
        fallbackAction := "switch-up", overviewAction := none }
      { overviewReply := none, windowsBeforeReply := none, windowsAfterReply := none,
        actionOk := fun _ => true } :=
  ⟨((C3_overview_gate _ _).1 [("is_open", .bool true)] rfl (by decide)).1,
    (C3_overview_gate _ _).2 (by decide)⟩

/-- Claim C4: when the primary action fails to execute the process exits
with code 1, the fallback is never run, and the outcome does not depend on
the post-action window query. -/
theorem C4_primary_failure_fatal (args : Args) (env : Env) (fw : Window)
    (hov : _overview_is_open env.overviewReply ≠ some true)
    (hfw : _focused_window (_collect_windows env.windowsBeforeReply) = some fw)
    (hfl : truthy (pyGet fw "is_floating") = false)
    (hfail : env.actionOk args.primaryAction = false) :
    (mainNav args env).exitCode = 1 ∧
    (mainNav args env).actions = [args.primaryAction] ∧
    ∀ wa, mainNav args { env with windowsAfterReply := wa } = mainNav args env := by
  have h1 : mainNav args env = { exitCode := 1, actions := [args.primaryAction] } := by
    rw [mainNav_eq_after hov, mainAfter_reach_primary hfw hfl]
    simp [hfail]
  refine ⟨by rw [h1], by rw [h1], ?_⟩
  intro wa
  have hov' : _overview_is_open
      ({ env with windowsAfterReply := wa } : Env).overviewReply ≠ some true := hov
  have hfw' : _focused_window
      (_collect_windows ({ env with windowsAfterReply := wa } : Env).windowsBeforeReply) =
      some fw := hfw
  have h2 : mainNav args { env with windowsAfterReply := wa } =
      { exitCode := 1, actions := [args.primaryAction] } := by
    rw [mainNav_eq_after hov', mainAfter_reach_primary hfw' hfl]
    simp [hfail]
  rw [h1, h2]

/-- Witness for C4: a failing primary action exits 1 and runs nothing else. -/
theorem C4_primary_failure_fatal_witness :
    (mainNav
      { direction := "left", primaryAction := "focus-column-left",
        fallbackAction := "switch-left", overviewAction := none }
      { overviewReply := none,
        windowsBeforeReply := some (.arr [.obj [("id", .int 9), ("is_focused", .bool true)]]),
        windowsAfterReply := none,
        actionOk := fun _ => false }).exitCode = 1 ∧
    (mainNav
      { direction := "left", primaryAction := "focus-column-left",
        fallbackAction := "switch-left", overviewAction := none }
      { overviewReply := none,
        windowsBeforeReply := some (.arr [.obj [("id", .int 9), ("is_focused", .bool true)]]),
        windowsAfterReply := none,
        actionOk := fun _ => false }).actions = ["focus-column-left"] :=
  ⟨(C4_primary_failure_fatal _ _ [("id", .int 9), ("is_focused", .bool true)]
      (by decide) (by decide) (by decide) (by decide)).1,
    (C4_primary_failure_fatal _ _ [("id", .int 9), ("is_focused", .bool true)]
      (by decide) (by decide) (by decide) (by decide)).2.1⟩

/-- Claim C7: an empty or unavailable before set makes the run execute the
fallback only, exiting 0 iff the fallback succeeded. -/
theorem C7_empty_before_fallback (args : Args) (env : Env)
    (hov : _overview_is_open env.overviewReply ≠ some true)
    (hempty : (_collect_windows env.windowsBeforeReply).isEmpty = true) :
    (mainNav args env).actions = [args.fallbackAction] ∧
    (mainNav args env).exitCode = (if env.actionOk args.fallbackAction then 0 else 1) := by
  rw [mainNav_eq_after hov]
  unfold mainAfterOverview
  simp [hempty, runActionExit]

/-- Witness for C7: a window query answering `[]` triggers the fallback and
the run exits 0. -/
theorem C7_empty_before_fallback_witness :
    (mainNav
      { direction := "right", primaryAction := "focus-column-right",
        fallbackAction := "switch-right", overviewAction := none }
      { overviewReply := none, windowsBeforeReply := some (.arr []),
        windowsAfterReply := none, actionOk := fun _ => true }).actions =
      ["switch-right"] ∧
    (mainNav
      { direction := "right", primaryAction := "focus-column-right",
        fallbackAction := "switch-right", overviewAction := none }
      { overviewReply := none, windowsBeforeReply := some (.arr []),
        windowsAfterReply := none, actionOk := fun _ => true }).exitCode = 0 :=
  ⟨(C7_empty_before_fallback _ _ (by decide) (by decide)).1,
    by rw [(C7_empty_before_fallback _ _ (by decide) (by decide)).2]; rfl⟩

/-- Claim C8: an empty or unavailable after set, following a successful
primary action, exits 1 without running the fallback. -/
theorem C8_after_unavailable_fatal (args : Args) (env : Env) (fw : Window)
    (hov : _overview_is_open env.overviewReply ≠ some true)
    (hfw : _focused_window (_collect_windows env.windowsBeforeReply) = some fw)
    (hfl : truthy (pyGet fw "is_floating") = false)
    (hok : env.actionOk args.primaryAction = true)
    (hafter : (_collect_windows env.windowsAfterReply).isEmpty = true) :
    (mainNav args env).exitCode = 1 ∧
    (mainNav args env).actions = [args.primaryAction] := by
  rw [mainNav_eq_after hov, mainAfter_reach_primary hfw hfl]
  simp [hok, hafter]

/-- Witness for C8: the post-action query is unavailable, so the run exits
1 having run only the primary action. -/
theorem C8_after_unavailable_fatal_witness :
    (mainNav
      { direction := "up", primaryAction := "focus-window-up",
        fallbackAction := "switch-up", overviewAction := none }
      { overviewReply := none,
        windowsBeforeReply := some (.arr [.obj [("id", .int 1), ("is_focused", .bool true)]]),
        windowsAfterReply := none,
        actionOk := fun _ => true }).exitCode = 1 ∧
    (mainNav
      { direction := "up", primaryAction := "focus-window-up",
        fallbackAction := "switch-up", overviewAction := none }
      { overviewReply := none,
        windowsBeforeReply := some (.arr [.obj [("id", .int 1), ("is_focused", .bool true)]]),
        windowsAfterReply := none,
        actionOk := fun _ => true }).actions = ["focus-window-up"] :=
  C8_after_unavailable_fatal _ _ [("id", .int 1), ("is_focused", .bool true)]
    (by decide) (by decide) (by decide) (by decide) (by decide)

/-- Claim C9 (implicit): the focused-window lookup returns the earliest
window in query order whose `is_focused` value is truthy, and a focus flag
that is `null`, `false`, `0` or `""` does not count as focused. -/
theorem C9_focused_first_truthy (xs ys : List Window) (w : Window)
    (hxs : ∀ x ∈ xs, truthy (pyGet x "is_focused") = false)
    (hw : truthy (pyGet w "is_focused") = true) :
    _focused_window (xs ++ w :: ys) = some w ∧
    truthy .null = false ∧ truthy (.bool false) = false ∧
    truthy (.int 0) = false ∧ truthy (.str "") = false := by
  refine ⟨?_, rfl, rfl, by decide, by decide⟩
  induction xs with
  | nil => simp [_focused_window, List.find?, hw]
  | cons a l ih =>
    have ha := hxs a (by simp)
    have hrest := ih (fun x hx => hxs x (by simp [hx]))
    simpa [_focused_window, List.find?, ha] using hrest

/-- Witness for C9: a false-flagged window is skipped, and of two truthy
windows the earlier one wins. -/
theorem C9_focused_first_truthy_witness :
    _focused_window
      ([[("id", JVal.int 1), ("is_focused", JVal.bool false)]] ++
        [("id", JVal.int 2), ("is_focused", JVal.bool true)] ::
          [[("id", JVal.int 3), ("is_focused", JVal.bool true)]]) =
      some [("id", JVal.int 2), ("is_focused", JVal.bool true)] :=
  (C9_focused_first_truthy _ _ _
    (by intro x hx; simp at hx; subst hx; decide) (by decide)).1

/-- Claim C10 (implicit): an `--overview-action` supplied as the empty
string behaves exactly like an absent one: with the overview open the
fallback action is substituted, because `or` tests the string's
truthiness. -/
theorem C10_empty_overview_action (args : Args) (env : Env)
    (hov : _overview_is_open env.overviewReply = some true) :
    mainNav { args with overviewAction := some "" } env =
      mainNav { args with overviewAction := none } env ∧
    (mainNav { args with overviewAction := some "" } env).actions =
      [args.fallbackAction] := by
  constructor <;> simp [mainNav, hov, pyTruthyOptBool, pyOrStr, runActionExit]

/-- Witness for C10: with the overview open and `--overview-action ""`,
the fallback action is the one that runs. -/
theorem C10_empty_overview_action_witness :
    (mainNav
      { direction := "down", primaryAction := "focus-window-down",
        fallbackAction := "switch-down", overviewAction := some "" }
      { overviewReply := some (.obj [("is_open", .bool true)]),
        windowsBeforeReply := none, windowsAfterReply := none,
        actionOk := fun _ => true }).actions = ["switch-down"] :=
  (C10_empty_overview_action
    { direction := "down", primaryAction := "focus-window-down",
      fallbackAction := "switch-down", overviewAction := none } _ (by decide)).2

/-- Identity construction rule as the specification words it: the single
(field-name, value) pair for the first priority field whose value is a
scalar — text or integer, which in the source language also admits
booleans, `bool` being a subclass of `int` — and otherwise the
four-element composite of workspace id, app id, title and process id,
keeping entries whose values are absent or null. -/
def identitySpec (win : Window) : Identity :=
  match candidate_keys.find? (fun k => isScalarValue (pyGet win k)) with
  | some k => [(k, pyGet win k)]
  | none =>
    [("workspace_id", pyGet win "workspace_id"), ("app_id", pyGet win "app_id"),
      ("title", pyGet win "title"), ("pid", pyGet win "pid")]

theorem firstScalarPart_eq_find (win : Window) (ks : List String) :
    firstScalarPart win ks =
      match ks.find? (fun k => isScalarValue (pyGet win k)) with
      | some k => [(k, pyGet win k)]
      | none => [] := by
  induction ks with
  | nil => rfl
  | cons k ks ih =>
    by_cases h : isScalarValue (pyGet win k) = true
    · simp [firstScalarPart, List.find?_cons, h]
    · rw [Bool.not_eq_true] at h
      simp [firstScalarPart, List.find?_cons, h, ih]

/-- Claim C5: `_window_identity` is a function of the window alone (hence
deterministic across repeated calls) that agrees everywhere with the
specification's construction rule, and the composite fallback it returns
when no priority field carries a scalar value is non-empty. -/
theorem C5_identity_construction (win : Window) :
    _window_identity win = identitySpec win ∧ _window_identity win ≠ [] := by
  have h := firstScalarPart_eq_find win candidate_keys
  unfold _window_identity identitySpec
  cases hf : candidate_keys.find? (fun k => isScalarValue (pyGet win k)) with
  | some k =>
    rw [h, hf]
    simp
  | none =>
    rw [h, hf]
    simp [fallback_keys]

theorem charsLe_total : ∀ a b : List Char, charsLe a b = true ∨ charsLe b a = true := by
  intro a
  induction a with
  | nil => intro b; left; rfl
  | cons c cs ih =>
    intro b
    cases b with
    | nil => right; rfl
    | cons d ds =>
      by_cases h1 : c.toNat < d.toNat
      · left; simp [charsLe, h1]
      · by_cases h2 : d.toNat < c.toNat
        · right; simp [charsLe, h2]
        · rcases ih ds with h | h
          · left; simp [charsLe, h1, h2, h]
          · right; simp [charsLe, h1, h2, h]

theorem charsLe_trans :
    ∀ a b c : List Char, charsLe a b = true → charsLe b c = true → charsLe a c = true := by
  intro a
  induction a with
  | nil => intro b c _ _; rfl
  | cons x xs ih =>
    intro b c hab hbc
    cases b with
    | nil => simp [charsLe] at hab
    | cons y ys =>
      cases c with
      | nil => simp [charsLe] at hbc
      | cons z zs =>
        simp only [charsLe] at hab hbc ⊢
        by_cases hxy : x.toNat < y.toNat
        · by_cases hyz : y.toNat < z.toNat
          · simp [Nat.lt_trans hxy hyz]
          · by_cases hzy : z.toNat < y.toNat
            · simp [hyz, hzy] at hbc
            · have hyze : y.toNat = z.toNat := by omega
              simp [hyze ▸ hxy]
        · by_cases hyx : y.toNat < x.toNat
          · simp [hxy, hyx] at hab
          · have hxye : x.toNat = y.toNat := by omega
            by_cases hyz : y.toNat < z.toNat
            · simp [hxye ▸ hyz]
            · by_cases hzy : z.toNat < y.toNat
              · simp [hyz, hzy] at hbc
              · have hxz : ¬ x.toNat < z.toNat := by omega
                have hzx : ¬ z.toNat < x.toNat := by omega
                simp only [hxy, hyx, if_false] at hab
                simp only [hyz, hzy, if_false] at hbc
                simp [hxz, hzx, ih ys zs hab hbc]

theorem charsLe_antisymm :
    ∀ a b : List Char, charsLe a b = true → charsLe b a = true → a = b := by
  intro a
  induction a with
  | nil =>
    intro b _ hba
    cases b with
    | nil => rfl
    | cons d ds => simp [charsLe] at hba
  | cons c cs ih =>
    intro b hab hba
    cases b with
    | nil => simp [charsLe] at hab
    | cons d ds =>
      simp only [charsLe] at hab hba
      by_cases h1 : c.toNat < d.toNat
      · have h2 : ¬ d.toNat < c.toNat := by omega
        simp [h1, h2] at hba
      · by_cases h2 : d.toNat < c.toNat
        · simp [h1, h2] at hab
        · have h3 : c.toNat = d.toNat := by omega
          have hcd : c = d := Char.eq_of_val_eq (UInt32.ext h3)
          simp only [h1, h2, if_false] at hab hba
          rw [hcd, ih ds hab hba]

theorem strLe_antisymm {a b : String} (hab : strLe a b = true) (hba : strLe b a = true) :
    a = b :=
  String.toList_inj.mp (charsLe_antisymm _ _ hab hba)

instance : IsTotal (String × String) entryLe :=
  ⟨fun a b => charsLe_total a.1.toList b.1.toList⟩

instance : IsTrans (String × String) entryLe :=
  ⟨fun _ _ _ hab hbc => charsLe_trans _ _ _ hab hbc⟩

theorem serFields_keys (l : List (String × JVal)) :
    (JVal.serFields l).map Prod.fst = l.map Prod.fst := by
  induction l with
  | nil => rfl
  | cons kv rest ih =>
    obtain ⟨k, v⟩ := kv
    simp [JVal.serFields, ih]

theorem serFields_perm {l1 l2 : List (String × JVal)} (h : l1.Perm l2) :
    (JVal.serFields l1).Perm (JVal.serFields l2) := by
  have e : ∀ l : List (String × JVal),
      JVal.serFields l = l.map (fun kv => (kv.1, JVal.ser kv.2)) := by
    intro l
    induction l with
    | nil => rfl
    | cons kv rest ih => obtain ⟨k, v⟩ := kv; simp [JVal.serFields, ih]
  rw [e, e]
  exact h.map _

/-- Two object field lists that are permutations of one another with
pairwise-distinct keys serialize identically: `sort_keys=True` puts their
entries in the same order. -/
theorem ser_obj_perm {l1 l2 : List (String × JVal)} (hperm : l1.Perm l2)
    (hnd : (l1.map Prod.fst).Nodup) :
    JVal.ser (.obj l1) = JVal.ser (.obj l2) := by
  have hs : (JVal.serFields l1).Perm (JVal.serFields l2) := serFields_perm hperm
  have hp : (List.insertionSort entryLe (JVal.serFields l1)).Perm
      (List.insertionSort entryLe (JVal.serFields l2)) :=
    (List.perm_insertionSort entryLe _).trans
      (hs.trans (List.perm_insertionSort entryLe _).symm)
  have hsort1 := List.sorted_insertionSort entryLe (JVal.serFields l1)
  have hsort2 := List.sorted_insertionSort entryLe (JVal.serFields l2)
  have hk1 : ((List.insertionSort entryLe (JVal.serFields l1)).map Prod.fst).Nodup := by
    refine ((List.perm_insertionSort entryLe _).map Prod.fst).nodup_iff.mpr ?_
    rw [serFields_keys]
    exact hnd
  have hk2 : ((List.insertionSort entryLe (JVal.serFields l2)).map Prod.fst).Nodup :=
    (hp.map Prod.fst).nodup_iff.mp hk1
  haveI : IsAntisymm (String × String) (fun a b => entryLe a b ∧ a.1 ≠ b.1) :=
    ⟨fun a b hab hba => absurd (strLe_antisymm hab.1 hba.1) hab.2⟩
  have hr1 : List.Sorted (fun a b : String × String => entryLe a b ∧ a.1 ≠ b.1)
      (List.insertionSort entryLe (JVal.serFields l1)) :=
    hsort1.and (List.pairwise_map.mp hk1)
  have hr2 : List.Sorted (fun a b : String × String => entryLe a b ∧ a.1 ≠ b.1)
      (List.insertionSort entryLe (JVal.serFields l2)) :=
    hsort2.and (List.pairwise_map.mp hk2)
  have hse : List.insertionSort entryLe (JVal.serFields l1) =
      List.insertionSort entryLe (JVal.serFields l2) :=
    List.eq_of_perm_of_sorted hp hr1 hr2
  simp only [JVal.ser, hse]

theorem dictSet_fresh (v : JVal) :
    ∀ (acc : List (String × JVal)) (k : String), k ∉ acc.map Prod.fst →
      dictSet acc k v = acc ++ [(k, v)] := by
  intro acc
  induction acc with
  | nil => intro k _; rfl
  | cons a rest ih =>
    intro k hk
    obtain ⟨k', v'⟩ := a
    simp only [List.map_cons, List.mem_cons] at hk
    push_neg at hk
    simp only [dictSet]
    rw [if_neg (fun he => hk.1 he.symm), ih k hk.2]
    simp

theorem snapshot_foldl_eq :
    ∀ (l acc : List (String × JVal)),
      (∀ kv ∈ l, containsSub kv.1 "column" = true → kv.1 ∉ acc.map Prod.fst) →
      (l.map Prod.fst).Nodup →
      l.foldl
          (fun acc kv => if containsSub kv.1 "column" then dictSet acc kv.1 kv.2 else acc)
          acc =
        acc ++ l.filter (fun kv => containsSub kv.1 "column") := by
  intro l
  induction l with
  | nil => intro acc _ _; simp
  | cons kv rest ih =>
    intro acc hfresh hnd
    simp only [List.map_cons, List.nodup_cons] at hnd
    by_cases hc : containsSub kv.1 "column" = true
    · have hf : kv.1 ∉ acc.map Prod.fst := hfresh kv (by simp) hc
      simp only [List.foldl_cons, hc, if_true]
      rw [dictSet_fresh kv.2 acc kv.1 hf]
      rw [ih (acc ++ [(kv.1, kv.2)]) ?fresh hnd.2]
      · simp [List.filter_cons, hc]
      case fresh =>
        intro kv' hkv' hc'
        simp only [List.map_append, List.map_cons, List.map_nil, List.mem_append,
          List.mem_cons, List.not_mem_nil, or_false]
        push_neg
        refine ⟨hfresh kv' (by simp [hkv']) hc', ?_⟩
        intro he
        apply hnd.1
        rw [← he]
        exact List.mem_map_of_mem Prod.fst hkv'
    · simp only [List.foldl_cons, hc, Bool.false_eq_true, if_false]
      rw [ih acc (fun kv' h' hc' => hfresh kv' (by simp [h']) hc') hnd.2]
      simp [List.filter_cons, hc]

/-- With pairwise-distinct window keys every column-field assignment of
`_window_snapshot` hits a fresh key, so the snapshot dict is the two base
entries followed by the column fields in iteration order. -/
theorem snapshotDict_eq (win : Window) (hnd : (win.map Prod.fst).Nodup) :
    snapshotDict win =
      [("workspace_id", pyGet win "workspace_id"), ("layout", pyGet win "layout")] ++
        win.filter (fun kv => containsSub kv.1 "column") := by
  unfold snapshotDict
  apply snapshot_foldl_eq win _ _ hnd
  intro kv hkv hc
  simp only [List.map_cons, List.map_nil, List.mem_cons, List.not_mem_nil, or_false]
  push_neg
  constructor
  · intro he
    rw [he] at hc
    exact absurd hc (by decide)
  · intro he
    rw [he] at hc
    exact absurd hc (by decide)

/-- Claim C6: `_window_snapshot` is deterministic and order-independent.
Two windows with pairwise-distinct keys (a Python dict invariant) that
agree on their workspace id, their layout descriptor and the collection of
column-named fields — up to the insertion order of those keys — produce
equal snapshots, so the snapshot depends on no other field of the window. -/
theorem C6_snapshot_order_independent (w1 w2 : Window)
    (hn1 : (w1.map Prod.fst).Nodup) (hn2 : (w2.map Prod.fst).Nodup)
    (hws : pyGet w1 "workspace_id" = pyGet w2 "workspace_id")
    (hlay : pyGet w1 "layout" = pyGet w2 "layout")
    (hcol : (w1.filter (fun kv => containsSub kv.1 "column")).Perm
      (w2.filter (fun kv => containsSub kv.1 "column"))) :
    _window_snapshot w1 = _window_snapshot w2 := by
  unfold _window_snapshot
  apply ser_obj_perm
  · rw [snapshotDict_eq w1 hn1, snapshotDict_eq w2 hn2, hws, hlay]
    exact List.Perm.append_left _ hcol
  · rw [snapshotDict_eq w1 hn1]
    have hcolkeys : ∀ kv ∈ w1.filter (fun kv => containsSub kv.1 "column"),
        containsSub kv.1 "column" = true := fun kv h => (List.mem_filter.mp h).2
    have hfnd : ((w1.filter (fun kv => containsSub kv.1 "column")).map Prod.fst).Nodup :=
      ((List.filter_sublist w1).map Prod.fst).nodup hn1
    simp only [List.cons_append, List.nil_append, List.map_cons, List.nodup_cons,
      List.mem_cons, List.mem_map]
    refine ⟨?_, ?_, hfnd⟩
    · push_neg
      constructor
      · decide
      · rintro kv hkv he
        have := hcolkeys kv hkv
        rw [he] at this
        exact absurd this (by decide)
    · push_neg
      rintro kv hkv he
      have := hcolkeys kv hkv
      rw [he] at this
      exact absurd this (by decide)

/-- Witness for C6: the same column fields inserted in opposite orders
yield the same serialized snapshot. -/
theorem C6_snapshot_order_independent_witness :
    _window_snapshot
        [("workspace_id", .int 1), ("active_column", .int 2), ("column_width", .int 3)] =
      _window_snapshot
        [("column_width", .int 3), ("active_column", .int 2), ("workspace_id", .int 1)] :=
  C6_snapshot_order_independent _ _
    (by decide) (by decide) (by decide) (by decide) (by decide)
